import Mathlib

/-!
Shallow embedding of the spa-booking backend (griantek/spa_booking_backend).

Two variants of the server are embedded:
* `S4` definitions follow src/server4.js (in-memory token map; reminder
  alert time stored as a JS Date value);
* `JW` definitions follow src/unnamed/part_000 (JWT signed tokens; reminder
  alert time converted with toISOString before storage).

Timestamps are modelled in "local milliseconds": the value the ECMAScript
date parser assigns to a local date-time string, with the host's UTC offset
dropped.  The offset shifts every timestamp by the same constant, so every
relation stated here (the minus-one-hour derivation, equality of two
parses) is invariant under it.  An ECMAScript Invalid Date (NaN) is
modelled as `none`; arithmetic on it stays `none`, as NaN propagates.

The durable store is modelled as the abstract key-record store the
specification scopes it to: a list of records in insertion order, where
`findOne` / `findOneAndUpdate` / `deleteOne` act on the first matching
record, `create` appends, and upsert inserts at the end when no record
matches the key.
-/

/-- JS truthiness of a possibly-missing string field (`!x` in the source):
`undefined` and the empty string are falsy, every other string truthy. -/
def truthy : Option String → Bool
  | none => false
  | some s => !(s == (""))

/-- JS string coercion used by template literals: `undefined` prints as
the text "undefined". -/
def jsStr : Option String → String
  | none => ("undefined")
  | some s => s

/-- Civil date to days since 1970-01-01 (proleptic Gregorian), the mapping
the ECMAScript Date type uses for its day number. -/
def daysFromCivil (y m d : Nat) : Int :=
  let yi : Int := if m ≤ 2 then (y : Int) - 1 else (y : Int)
  let era : Int := (if 0 ≤ yi then yi else yi - 399) / 400
  let yoe : Int := yi - era * 400
  let mp : Int := ((m : Int) + 9) % 12
  let doy : Int := (153 * mp + 2) / 5 + (d : Int) - 1
  let doe : Int := yoe * 365 + yoe / 4 - yoe / 100 + doy
  era * 146097 + doe - 719468

/-- Number of days in a month, with the Gregorian leap-year rule. -/
def daysInMonth (y m : Nat) : Nat :=
  if m == 2 then
    if y % 4 == 0 && (y % 100 != 0 || y % 400 == 0) then 29 else 28
  else if m == 4 || m == 6 || m == 9 || m == 11 then 30
  else 31

/-- Digits to a number, most significant first. -/
def digitsToNat (l : List Char) : Nat :=
  l.foldl (fun a c => 10 * a + (c.toNat - ('0').toNat)) 0

/-- ECMAScript parsing of the date-time strings this system builds
(`date` ++ "T" ++ `time`): the ISO local form YYYY-MM-DDTHH:MM, with
component range checks (24:00 allowed as end of day, per the ES grammar).
Any other string yields an Invalid Date, modelled as `none`.  The result
is in local milliseconds (see the file comment). -/
def parseDT (s : String) : Option Int :=
  match s.data with
  | [y1, y2, y3, y4, '-', m1, m2, '-', d1, d2, 'T', h1, h2, ':', n1, n2] =>
    if ([y1, y2, y3, y4, m1, m2, d1, d2, h1, h2, n1, n2].all Char.isDigit) then
      let y := digitsToNat [y1, y2, y3, y4]
      let mo := digitsToNat [m1, m2]
      let d := digitsToNat [d1, d2]
      let h := digitsToNat [h1, h2]
      let mi := digitsToNat [n1, n2]
      if 1 ≤ mo && mo ≤ 12 && 1 ≤ d && d ≤ daysInMonth y mo &&
         ((h ≤ 23 && mi ≤ 59) || (h == 24 && mi == 0)) then
        some ((daysFromCivil y mo d) * 86400000 + ((h * 3600 + mi * 60 : Nat) : Int) * 1000)
      else none
    else none
  | _ => none

/-- Appointment record (appointmentSchema): unique per phone; `id` stands
for the Mongo ObjectId `_id`. -/
structure Appointment where
  id : Nat
  name : String
  phone : String
  service : String
  time : String
  date : String
  notes : Option String
deriving DecidableEq, Repr

/-- Reminder record (reminderSchema): owned by an appointment through
`appointmentId`; `alertTime` is a JS Date value (none = Invalid Date);
`status` defaults to "pending". -/
structure Reminder where
  appointmentId : Nat
  alertTime : Option Int
  status : String
deriving DecidableEq, Repr

/-- The durable store: both collections plus a fresh-id counter for
newly inserted appointments. -/
structure DB where
  appointments : List Appointment
  reminders : List Reminder
  nextId : Nat
deriving DecidableEq, Repr

/-- A request body after `const { name, phone, service, time, date, notes }
= req.body`: every field may be absent. -/
structure BookingReq where
  name : Option String
  phone : Option String
  service : Option String
  time : Option String
  date : Option String
  notes : Option String
deriving DecidableEq, Repr

/-- Responses of the booking routes. -/
inductive Resp where
  | ok : Appointment → Resp
  | okCancel : Resp
  | validationError : Resp
  | notFound : Resp
deriving DecidableEq, Repr

/-- Mongo query filter `{ phone }`: mongoose strips an undefined value
from the conditions, so a missing phone matches every document. -/
def appFilter (po : Option String) (a : Appointment) : Bool :=
  match po with
  | none => true
  | some p => a.phone == p

/-- `Appointment.findOne({ phone })`. -/
def findByPhone (l : List Appointment) (p : String) : Option Appointment :=
  l.find? (appFilter (some p))

/-- Replace the first record matching the filter (findOneAndUpdate). -/
def replaceFirstBy : List Appointment → (Appointment → Bool) → Appointment → List Appointment
  | [], _, _ => []
  | a :: t, f, a1 => if f a then a1 :: t else a :: replaceFirstBy t f a1

/-- Remove the first record matching the filter (findOneAndDelete). -/
def removeFirstBy : List Appointment → (Appointment → Bool) → List Appointment
  | [], _ => []
  | a :: t, f => if f a then t else a :: removeFirstBy t f

/-- `Reminder.findOneAndUpdate({ appointmentId }, ...)`: rewrite the first
reminder owned by the appointment, no-op when none exists. -/
def updateFirstRem : List Reminder → Nat → (Reminder → Reminder) → List Reminder
  | [], _, _ => []
  | rm :: t, i, f => if rm.appointmentId == i then f rm :: t else rm :: updateFirstRem t i f

/-- `Reminder.deleteOne({ appointmentId })`: remove the first reminder
owned by the appointment, no-op when none exists. -/
def removeFirstRem : List Reminder → Nat → List Reminder
  | [], _ => []
  | rm :: t, i => if rm.appointmentId == i then t else rm :: removeFirstRem t i

/-- Mongoose update-document semantics for the submit upsert: undefined
values are stripped from the update, so an absent field keeps the old
value (the five required fields are always present here, since the
handler validated them). -/
def applySubmitUpdate (a : Appointment) (r : BookingReq) : Appointment :=
  { a with
    name := (r.name).getD a.name
    phone := (r.phone).getD a.phone
    service := (r.service).getD a.service
    time := (r.time).getD a.time
    date := (r.date).getD a.date
    notes := match r.notes with
      | none => a.notes
      | some v => some v }

/-- Update document of /modify-appointment: same stripping, without the
phone field. -/
def applyModifyUpdate (a : Appointment) (r : BookingReq) : Appointment :=
  { a with
    name := (r.name).getD a.name
    service := (r.service).getD a.service
    time := (r.time).getD a.time
    date := (r.date).getD a.date
    notes := match r.notes with
      | none => a.notes
      | some v => some v }

/-- The alert time both handlers compute: parse `date` ++ "T" ++ `time`
as a JS Date and subtract one hour (60 * 60 * 1000 ms).  Arithmetic on an
Invalid Date stays invalid. -/
def alertOf (r : BookingReq) : Option Int :=
  (parseDT (jsStr r.date ++ ("T") ++ jsStr r.time)).map (fun t => t - 3600000)

/-- POST /submit-booking of src/server4.js: truthiness-validate the five
required fields, upsert the appointment by phone, answer success, then
unconditionally `Reminder.create` with the computed alert time (the
abstract store accepts the value as-is). -/
def submitS4 (db : DB) (r : BookingReq) : Resp × DB :=
  if !(truthy r.name && truthy r.phone && truthy r.service && truthy r.time && truthy r.date) then
    (Resp.validationError, db)
  else
    let p := (r.phone).getD ("")
    let upd :=
      match findByPhone db.appointments p with
      | some a0 => (applySubmitUpdate a0 r,
                    replaceFirstBy db.appointments (appFilter (some p)) (applySubmitUpdate a0 r),
                    db.nextId)
      | none =>
        let a1 : Appointment :=
          { id := db.nextId, name := (r.name).getD (""), phone := p,
            service := (r.service).getD (""), time := (r.time).getD (""),
            date := (r.date).getD (""), notes := r.notes }
        (a1, db.appointments ++ [a1], db.nextId + 1)
    let rem : Reminder := { appointmentId := upd.1.id, alertTime := alertOf r, status := ("pending") }
    (Resp.ok upd.1,
     { appointments := upd.2.1, reminders := db.reminders ++ [rem], nextId := upd.2.2 })

/-- POST /submit-booking of src/unnamed/part_000: identical up to the
reminder write, but the alert time goes through `toISOString()`, which
throws on an Invalid Date — the throw lands after the success response,
so on malformed date/time the appointment is saved, success is reported,
and no Reminder is written. -/
def submitJW (db : DB) (r : BookingReq) : Resp × DB :=
  if !(truthy r.name && truthy r.phone && truthy r.service && truthy r.time && truthy r.date) then
    (Resp.validationError, db)
  else
    let p := (r.phone).getD ("")
    let upd :=
      match findByPhone db.appointments p with
      | some a0 => (applySubmitUpdate a0 r,
                    replaceFirstBy db.appointments (appFilter (some p)) (applySubmitUpdate a0 r),
                    db.nextId)
      | none =>
        let a1 : Appointment :=
          { id := db.nextId, name := (r.name).getD (""), phone := p,
            service := (r.service).getD (""), time := (r.time).getD (""),
            date := (r.date).getD (""), notes := r.notes }
        (a1, db.appointments ++ [a1], db.nextId + 1)
    match alertOf r with
    | some t =>
      let rem : Reminder := { appointmentId := upd.1.id, alertTime := some t, status := ("pending") }
      (Resp.ok upd.1,
       { appointments := upd.2.1, reminders := db.reminders ++ [rem], nextId := upd.2.2 })
    | none =>
      (Resp.ok upd.1,
       { appointments := upd.2.1, reminders := db.reminders, nextId := upd.2.2 })

/-- POST /modify-appointment of src/server4.js: no field validation;
`findOneAndUpdate({ phone }, ..., { new: true })` — absent, report 404 and
stop; otherwise answer success with the updated appointment and rewrite
the owned reminder with the recomputed alert time and status "pending". -/
def modifyS4 (db : DB) (r : BookingReq) : Resp × DB :=
  match db.appointments.find? (appFilter r.phone) with
  | none => (Resp.notFound, db)
  | some a0 =>
    let a1 := applyModifyUpdate a0 r
    let rems := updateFirstRem db.reminders a1.id
      (fun rm => { rm with alertTime := alertOf r, status := ("pending") })
    (Resp.ok a1,
     { appointments := replaceFirstBy db.appointments (appFilter r.phone) a1,
       reminders := rems, nextId := db.nextId })

/-- POST /modify-appointment of src/unnamed/part_000.  The appointment
update is as in server4.js.  The reminder update passes
`{ status: 'pending' }` in the options argument of
`Reminder.findOneAndUpdate` and `{ new: true }` in the callback position,
so the update document is only `{ alertTime }`: the status is never reset
(on mongoose versions that reject a non-function callback the whole call
throws after the response and even the alert time is unchanged; under
either reading the status stays as it was — modelled as applying only the
update document).  The alert time also goes through `toISOString()`,
which throws on an Invalid Date before the reminder call. -/
def modifyJW (db : DB) (r : BookingReq) : Resp × DB :=
  match db.appointments.find? (appFilter r.phone) with
  | none => (Resp.notFound, db)
  | some a0 =>
    let a1 := applyModifyUpdate a0 r
    match alertOf r with
    | some t =>
      let rems := updateFirstRem db.reminders a1.id
        (fun rm => { rm with alertTime := some t })
      (Resp.ok a1,
       { appointments := replaceFirstBy db.appointments (appFilter r.phone) a1,
         reminders := rems, nextId := db.nextId })
    | none =>
      (Resp.ok a1,
       { appointments := replaceFirstBy db.appointments (appFilter r.phone) a1,
         reminders := db.reminders, nextId := db.nextId })

/-- POST /cancel-appointment (identical in both variants):
`findOneAndDelete({ phone })` — absent, report 404 and mutate nothing;
otherwise `Reminder.deleteOne({ appointmentId })` and then success. -/
def cancelBooking (db : DB) (po : Option String) : Resp × DB :=
  match db.appointments.find? (appFilter po) with
  | none => (Resp.notFound, db)
  | some a =>
    (Resp.okCancel,
     { appointments := removeFirstBy db.appointments (appFilter po),
       reminders := removeFirstRem db.reminders a.id, nextId := db.nextId })

/-- One entry of the in-memory token map of src/server4.js
(`tokenStore[token] = { phone, name }`). -/
structure TokEntry where
  token : String
  phone : String
  name : String
deriving DecidableEq, Repr

/-- Responses of the token routes. -/
inductive TokResp where
  | okToken : String → TokResp
  | okIdent : String → String → TokResp
  | okPhone : String → TokResp
  | missing : TokResp
  | invalidToken : TokResp
deriving DecidableEq, Repr

/-- The 62 characters `generateSimpleToken` draws from. -/
def tokenChars : List Char :=
  ("ABCDEFGHIJKLMNOPQRSTUVWXYZabcdefghijklmnopqrstuvwxyz0123456789").data

/-- generateSimpleToken of src/server4.js: eight characters, each picked
by `Math.floor(Math.random() * chars.length)`; the stream of random draws
enters as an explicit argument. -/
def generateSimpleToken (rand : List Nat) : String :=
  String.mk ((List.range 8).map (fun i => tokenChars.getD ((rand.getD i 0) % 62) ('A')))

/-- `tokenStore[token]`: first entry of the map with this key. -/
def tokLookup (st : List TokEntry) (tok : String) : Option TokEntry :=
  st.find? (fun e => e.token == tok)

/-- `tokenStore[token] = { phone, name }`: replace the binding when the
key exists, otherwise add it. -/
def tokSet (st : List TokEntry) (tok p n : String) : List TokEntry :=
  if (st.find? (fun e => e.token == tok)).isSome then
    st.map (fun e => if e.token == tok then { token := tok, phone := p, name := n } else e)
  else st ++ [{ token := tok, phone := p, name := n }]

/-- GET /generate-token of src/server4.js: both query fields required
(truthiness), then store the fresh token with the identity and return
it. -/
def generateTokenS4 (st : List TokEntry) (phone name : Option String) (tok : String) :
    TokResp × List TokEntry :=
  if !(truthy phone && truthy name) then (TokResp.missing, st)
  else (TokResp.okToken tok, tokSet st tok (jsStr phone) (jsStr name))

/-- GET /validate-token of src/server4.js: token required (truthiness);
unknown token answers 401 Invalid; a known token answers its stored
identity.  The handler never writes the store. -/
def validateTokenS4 (st : List TokEntry) (tok : Option String) : TokResp × List TokEntry :=
  if !(truthy tok) then (TokResp.missing, st)
  else
    match tokLookup st (jsStr tok) with
    | none => (TokResp.invalidToken, st)
    | some e => (TokResp.okIdent e.phone e.name, st)

/-- A JWT as seen by src/unnamed/part_000: either a signed envelope
carrying the phone, the expiry (seconds), and an HMAC tag, or a malformed
string. -/
inductive Jwt where
  | signed : String → Int → String → Jwt
  | malformed : String → Jwt
deriving DecidableEq, Repr

/-- The HMAC tag, modelled as an injective pairing of the payload with
the secret (payload first, so two tags over the same payload agree only
for the same secret). -/
def hmacSig (secret phone : String) (e : Int) : String :=
  (phone ++ ("|") ++ toString e ++ ("|")) ++ secret

/-- `jwt.sign({ phone }, SECRET_KEY, { expiresIn: "15m" })`: expiry is
issuance time plus 900 seconds. -/
def signJwt (secret phone : String) (now : Int) : Jwt :=
  Jwt.signed phone (now + 900) (hmacSig secret phone (now + 900))

/-- `jwt.verify(token, SECRET_KEY)` at clock time `now`: malformed, bad
tag, or expired (now at or past exp) all raise, answered as 401. -/
def verifyJwt (secret : String) (tok : Jwt) (now : Int) : TokResp :=
  match tok with
  | Jwt.malformed _ => TokResp.invalidToken
  | Jwt.signed phone e sig =>
    if sig == hmacSig secret phone e then
      if now < e then TokResp.okPhone phone else TokResp.invalidToken
    else TokResp.invalidToken

/-- GET /generate-token of src/unnamed/part_000: phone required (else the
400 missing answer, modelled as `none`), then the signed token; stateless,
no store is touched. -/
def generateTokenJW (secret : String) (phone : Option String) (now : Int) : Option Jwt :=
  if !(truthy phone) then none else some (signJwt secret (jsStr phone) now)

/-- GET /validate-token of src/unnamed/part_000: token required, then
`jwt.verify`; success answers `{ phone }`. -/
def validateTokenJW (secret : String) (tok : Option Jwt) (now : Int) : TokResp :=
  match tok with
  | none => TokResp.missing
  | some t => verifyJwt secret t now

/-- Concrete fixture: the empty store. -/
def db0 : DB := { appointments := [], reminders := [], nextId := 0 }

/-- Concrete fixture: the appointment of the spec's scenario. -/
def appA : Appointment :=
  { id := 0, name := ("A"), phone := ("555"), service := ("cut"),
    time := ("14:00"), date := ("2024-01-10"), notes := none }

/-- Concrete fixture: the submission of the spec's scenario. -/
def reqFull : BookingReq :=
  { name := some ("A"), phone := some ("555"), service := some ("cut"),
    time := some ("14:00"), date := some ("2024-01-10"), notes := none }

/-- Concrete fixture: the scenario submission without its service field. -/
def reqNoService : BookingReq := { reqFull with service := none }

/-- Concrete fixture: the scenario submission with an empty name. -/
def reqEmptyName : BookingReq := { reqFull with name := some ("") }

/-- Concrete fixture: a modify request carrying only the phone. -/
def reqPhoneOnly : BookingReq :=
  { name := none, phone := some ("555"), service := none, time := none,
    date := none, notes := none }

/-- Concrete fixture: the scenario submission moved to 15:00. -/
def reqFull15 : BookingReq := { reqFull with time := some ("15:00") }

/-- Concrete fixture: the scenario submission with a malformed date. -/
def reqBananaDate : BookingReq := { reqFull with date := some ("banana") }

/-- Concrete fixture: a modify/cancel request for an unknown phone. -/
def reqPhone999 : BookingReq := { reqPhoneOnly with phone := some ("999") }

/-- Concrete fixture: the reminder of the scenario appointment. -/
def rmA : Reminder :=
  { appointmentId := 0, alertTime := parseDT (("2024-01-10T13:00")), status := ("pending") }

/-- Concrete fixture: a store holding the scenario appointment and its
reminder. -/
def dbA : DB := { appointments := [appA], reminders := [rmA], nextId := 1 }

/-- C1: the claimed invariant — a Reminder for an appointment exists iff
the appointment exists, with alertTime equal to the current date+time
minus one hour — fails on reachable states: after submitting the same
phone twice (second time at 15:00) one appointment owns two Reminder
records, one of which still carries the stale alert time; after the
subsequent cancel no appointment remains but a Reminder does. -/
theorem c1_reminder_invariant_fails_on_resubmit :
    let r1 : BookingReq :=
      { name := some ("A"), phone := some ("555"), service := some ("cut"),
        time := some ("14:00"), date := some ("2024-01-10"), notes := none }
    let r2 : BookingReq := { r1 with time := some ("15:00") }
    let db2 := (submitS4 (submitS4 { appointments := [], reminders := [], nextId := 0 } r1).2 r2).2
    let db3 := (cancelBooking db2 (some ("555"))).2
    (db2.appointments.length = 1
      ∧ (db2.reminders.filter (fun rm => rm.appointmentId == 0)).length = 2
      ∧ (∃ rm ∈ db2.reminders,
          rm.alertTime ≠ (parseDT (("2024-01-10T15:00"))).map (fun t => t - 3600000)))
    ∧ (db3.appointments = [] ∧ db3.reminders ≠ []) := by
  decide

/-- C2: submitting twice for the same phone does leave exactly one
Appointment with the second submission's fields, but /submit-booking
calls Reminder.create on every submission, so two Reminder records exist
afterwards — the first with the stale alert time — not one. -/
theorem c2_double_submit_duplicates_reminder :
    let r1 : BookingReq :=
      { name := some ("A"), phone := some ("555"), service := some ("cut"),
        time := some ("14:00"), date := some ("2024-01-10"), notes := none }
    let r2 : BookingReq := { r1 with time := some ("15:00") }
    let db2 := (submitS4 (submitS4 { appointments := [], reminders := [], nextId := 0 } r1).2 r2).2
    db2.appointments = [{ id := 0, name := ("A"), phone := ("555"), service := ("cut"),
                          time := ("15:00"), date := ("2024-01-10"), notes := none }]
    ∧ db2.reminders =
        [{ appointmentId := 0,
           alertTime := (parseDT (("2024-01-10T14:00"))).map (fun t => t - 3600000),
           status := ("pending") },
         { appointmentId := 0,
           alertTime := (parseDT (("2024-01-10T15:00"))).map (fun t => t - 3600000),
           status := ("pending") }]
    ∧ db2.reminders.length ≠ 1 := by
  decide

/-- C4: on a successful modify, src/server4.js rewrites the owned
reminder with the recomputed alert time and status reset to "pending",
but src/unnamed/part_000 passes the status reset in the options argument
of Reminder.findOneAndUpdate, so there the status (here "sent") is never
reset. -/
theorem c4_jwt_variant_modify_keeps_status :
    let a : Appointment := { id := 0, name := ("A"), phone := ("555"), service := ("cut"),
                             time := ("14:00"), date := ("2024-01-10"), notes := none }
    let db : DB := { appointments := [a],
                     reminders := [{ appointmentId := 0,
                                     alertTime := parseDT (("2024-01-10T13:00")),
                                     status := ("sent") }],
                     nextId := 1 }
    let r : BookingReq := { name := none, phone := some ("555"), service := none,
                            time := some ("15:00"), date := some ("2024-01-10"), notes := none }
    ((modifyS4 db r).2.reminders
        = [{ appointmentId := 0,
             alertTime := (parseDT (("2024-01-10T15:00"))).map (fun t => t - 3600000),
             status := ("pending") }])
    ∧ ((modifyJW db r).2.reminders
        = [{ appointmentId := 0,
             alertTime := (parseDT (("2024-01-10T15:00"))).map (fun t => t - 3600000),
             status := ("sent") }]) := by
  decide

/-- C5, counterexample: in the src/unnamed/part_000 variant a submit with
a malformed date still answers success with the saved appointment, but
`toISOString()` throws on the invalid alert time, so no Reminder record
is written at all — the invalid timestamp is not stored as-is. -/
theorem c5_counterexample_iso_variant_stores_nothing :
    let r : BookingReq := { name := some ("A"), phone := some ("555"), service := some ("cut"),
                            time := some ("12:00"), date := some ("banana"), notes := none }
    let out := submitJW { appointments := [], reminders := [], nextId := 0 } r
    out.1 = Resp.ok { id := 0, name := ("A"), phone := ("555"), service := ("cut"),
                      time := ("12:00"), date := ("banana"), notes := none }
    ∧ out.2.appointments.length = 1
    ∧ out.2.reminders = [] := by
  decide


theorem truthy_of_ne (s : String) (h : s ≠ ("")) : truthy (some s) = true := by
  simp [truthy]
  exact h

/-- C6: a submit with any required field missing answers ValidationError
and performs no write, in both variants. -/
theorem c6_missing_field_rejected (db : DB) (r : BookingReq)
    (h : r.name = none ∨ r.phone = none ∨ r.service = none ∨ r.time = none ∨ r.date = none) :
    submitS4 db r = (Resp.validationError, db) ∧ submitJW db r = (Resp.validationError, db) := by
  have hguard : (truthy r.name && truthy r.phone && truthy r.service &&
      truthy r.time && truthy r.date) = false := by
    rcases h with h | h | h | h | h <;> simp [h, truthy]
  constructor <;> simp [submitS4, submitJW, hguard]

theorem c6_missing_field_rejected_witness :
    (reqNoService.name = none ∨ reqNoService.phone = none ∨ reqNoService.service = none
      ∨ reqNoService.time = none ∨ reqNoService.date = none)
    ∧ (submitS4 db0 reqNoService = (Resp.validationError, db0)
       ∧ submitJW db0 reqNoService = (Resp.validationError, db0)) :=
  ⟨by decide, c6_missing_field_rejected db0 reqNoService (by decide)⟩

/-- C10: a submit with any required field equal to the empty string is
rejected with ValidationError and performs no write — the presence check
is JS truthiness, and the empty string is falsy. -/
theorem c10_empty_string_field_rejected (db : DB) (r : BookingReq)
    (h : r.name = some ("") ∨ r.phone = some ("") ∨ r.service = some ("")
       ∨ r.time = some ("") ∨ r.date = some ("")) :
    submitS4 db r = (Resp.validationError, db) ∧ submitJW db r = (Resp.validationError, db) := by
  have hguard : (truthy r.name && truthy r.phone && truthy r.service &&
      truthy r.time && truthy r.date) = false := by
    rcases h with h | h | h | h | h <;> simp [h, truthy]
  constructor <;> simp [submitS4, submitJW, hguard]

theorem c10_empty_string_field_rejected_witness :
    (reqEmptyName.name = some ("") ∨ reqEmptyName.phone = some ("")
      ∨ reqEmptyName.service = some ("") ∨ reqEmptyName.time = some ("")
      ∨ reqEmptyName.date = some (""))
    ∧ (submitS4 db0 reqEmptyName = (Resp.validationError, db0)
       ∧ submitJW db0 reqEmptyName = (Resp.validationError, db0)) :=
  ⟨by decide, c10_empty_string_field_rejected db0 reqEmptyName (by decide)⟩

/-- C9: /modify-appointment validates nothing: whenever the phone matches
an existing appointment, both variants answer success (never a
ValidationError), whatever subset of name, service, time, date, notes the
request carries. -/
theorem c9_modify_skips_validation (db : DB) (r : BookingReq) (p : String) (a0 : Appointment)
    (hp : r.phone = some p) (hfind : findByPhone db.appointments p = some a0) :
    (modifyS4 db r).1 = Resp.ok (applyModifyUpdate a0 r)
    ∧ (modifyJW db r).1 = Resp.ok (applyModifyUpdate a0 r) := by
  have h1 : db.appointments.find? (appFilter r.phone) = some a0 := by
    rw [hp]; exact hfind
  constructor
  · simp [modifyS4, h1]
  · cases h2 : alertOf r <;> simp [modifyJW, h1, h2]

theorem c9_modify_skips_validation_witness :
    reqPhoneOnly.phone = some ("555")
    ∧ findByPhone dbA.appointments ("555") = some appA
    ∧ ((modifyS4 dbA reqPhoneOnly).1 = Resp.ok (applyModifyUpdate appA reqPhoneOnly)
       ∧ (modifyJW dbA reqPhoneOnly).1 = Resp.ok (applyModifyUpdate appA reqPhoneOnly)) :=
  ⟨by decide, by decide,
   c9_modify_skips_validation dbA reqPhoneOnly ("555") appA (by decide) (by decide)⟩

theorem updateFirstRem_append (l1 l2 : List Reminder) (rm : Reminder) (i : Nat)
    (f : Reminder → Reminder)
    (h1 : ∀ x ∈ l1, x.appointmentId ≠ i) (h2 : rm.appointmentId = i) :
    updateFirstRem (l1 ++ rm :: l2) i f = l1 ++ f rm :: l2 := by
  induction l1 with
  | nil => simp [updateFirstRem, h2]
  | cons x xs ih =>
    have hx : (x.appointmentId == i) = false := by
      simpa using h1 x (by simp)
    simp only [List.cons_append, updateFirstRem, hx, Bool.false_eq_true, if_false]
    exact congrArg (x :: ·) (ih (fun y hy => h1 y (by simp [hy])))

/-- C3: for a validated submit (either variant) or a successful modify
whose date and time parse, the stored reminder's alert time is the
combined date-time timestamp minus 3600 seconds; in particular
2024-01-10 14:00 yields the timestamp of 2024-01-10T13:00 local. -/
theorem c3_alert_time_is_minus_one_hour (db : DB) (r : BookingReq) (d t : String) (T : Int)
    (hd : r.date = some d) (ht : r.time = some t)
    (hT : parseDT (d ++ ("T") ++ t) = some T)
    (hg : (truthy r.name && truthy r.phone && truthy r.service &&
           truthy r.time && truthy r.date) = true)
    (a0 : Appointment) (l1 l2 : List Reminder) (rm : Reminder)
    (hfind : db.appointments.find? (appFilter r.phone) = some a0)
    (hrems : db.reminders = l1 ++ rm :: l2)
    (hl1 : ∀ x ∈ l1, x.appointmentId ≠ a0.id) (hrm : rm.appointmentId = a0.id) :
    (∃ a, (submitS4 db r).1 = Resp.ok a
      ∧ (submitS4 db r).2.reminders
          = db.reminders ++ [{ appointmentId := a.id, alertTime := some (T - 3600000),
                               status := ("pending") }])
    ∧ (∃ a, (submitJW db r).1 = Resp.ok a
      ∧ (submitJW db r).2.reminders
          = db.reminders ++ [{ appointmentId := a.id, alertTime := some (T - 3600000),
                               status := ("pending") }])
    ∧ (modifyS4 db r).2.reminders
        = l1 ++ { rm with alertTime := some (T - 3600000), status := ("pending") } :: l2
    ∧ (∃ t14, parseDT (("2024-01-10T14:00")) = some t14
        ∧ parseDT (("2024-01-10T13:00")) = some (t14 - 3600000)) := by
  have halert : alertOf r = some (T - 3600000) := by
    simp [alertOf, hd, ht, jsStr, hT]
  refine ⟨?_, ?_, ?_, ?_⟩
  · cases hf : findByPhone db.appointments ((r.phone).getD ("")) with
    | some a1 => exact ⟨applySubmitUpdate a1 r, by simp [submitS4, hg, hf],
                        by simp [submitS4, hg, hf, halert]⟩
    | none =>
      exact ⟨{ id := db.nextId, name := (r.name).getD (""), phone := (r.phone).getD (""),
               service := (r.service).getD (""), time := (r.time).getD (""),
               date := (r.date).getD (""), notes := r.notes },
             by simp [submitS4, hg, hf], by simp [submitS4, hg, hf, halert]⟩
  · cases hf : findByPhone db.appointments ((r.phone).getD ("")) with
    | some a1 => exact ⟨applySubmitUpdate a1 r, by simp [submitJW, hg, hf, halert],
                        by simp [submitJW, hg, hf, halert]⟩
    | none =>
      exact ⟨{ id := db.nextId, name := (r.name).getD (""), phone := (r.phone).getD (""),
               service := (r.service).getD (""), time := (r.time).getD (""),
               date := (r.date).getD (""), notes := r.notes },
             by simp [submitJW, hg, hf, halert], by simp [submitJW, hg, hf, halert]⟩
  · simp only [modifyS4, hfind]
    rw [hrems, show (applyModifyUpdate a0 r).id = a0.id from rfl,
        updateFirstRem_append l1 l2 rm a0.id _ hl1 hrm]
    simp [halert]
  · exact ⟨1704895200000, by decide, by decide⟩

theorem c3_alert_time_is_minus_one_hour_witness :
    reqFull15.date = some ("2024-01-10")
    ∧ reqFull15.time = some ("15:00")
    ∧ parseDT (("2024-01-10") ++ ("T") ++ ("15:00")) = some 1704898800000
    ∧ (truthy reqFull15.name && truthy reqFull15.phone && truthy reqFull15.service &&
       truthy reqFull15.time && truthy reqFull15.date) = true
    ∧ dbA.appointments.find? (appFilter reqFull15.phone) = some appA
    ∧ dbA.reminders = [] ++ rmA :: []
    ∧ (∀ x ∈ ([] : List Reminder), x.appointmentId ≠ appA.id)
    ∧ rmA.appointmentId = appA.id
    ∧ ((∃ a, (submitS4 dbA reqFull15).1 = Resp.ok a
         ∧ (submitS4 dbA reqFull15).2.reminders
             = dbA.reminders ++ [{ appointmentId := a.id,
                                   alertTime := some (1704898800000 - 3600000),
                                   status := ("pending") }])
       ∧ (∃ a, (submitJW dbA reqFull15).1 = Resp.ok a
         ∧ (submitJW dbA reqFull15).2.reminders
             = dbA.reminders ++ [{ appointmentId := a.id,
                                   alertTime := some (1704898800000 - 3600000),
                                   status := ("pending") }])
       ∧ (modifyS4 dbA reqFull15).2.reminders
           = [] ++ { rmA with alertTime := some (1704898800000 - 3600000),
                              status := ("pending") } :: []
       ∧ (∃ t14, parseDT (("2024-01-10T14:00")) = some t14
           ∧ parseDT (("2024-01-10T13:00")) = some (t14 - 3600000))) :=
  ⟨by decide, by decide, by decide, by decide, by decide, by decide, by decide, by decide,
   c3_alert_time_is_minus_one_hour dbA reqFull15 ("2024-01-10") ("15:00") 1704898800000
     (by decide) (by decide) (by decide) (by decide) appA [] [] rmA
     (by decide) (by decide) (by decide) (by decide)⟩

/-- C5, amended: a validated submit whose date/time fail to parse still
answers success with the saved appointment in both variants; the server4
variant hands the Reminder store the invalid timestamp, stored as-is,
while the ISO variant's toISOString throws after the response, so no
Reminder is written there. -/
theorem c5_malformed_datetime_success (db : DB) (r : BookingReq)
    (hg : (truthy r.name && truthy r.phone && truthy r.service &&
           truthy r.time && truthy r.date) = true)
    (hbad : alertOf r = none) :
    (∃ a, (submitS4 db r).1 = Resp.ok a
      ∧ (submitS4 db r).2.reminders
          = db.reminders ++ [{ appointmentId := a.id, alertTime := none,
                               status := ("pending") }])
    ∧ (∃ a, (submitJW db r).1 = Resp.ok a
      ∧ (submitJW db r).2.reminders = db.reminders) := by
  constructor
  · cases hf : findByPhone db.appointments ((r.phone).getD ("")) with
    | some a1 => exact ⟨applySubmitUpdate a1 r, by simp [submitS4, hg, hf],
                        by simp [submitS4, hg, hf, hbad]⟩
    | none =>
      exact ⟨{ id := db.nextId, name := (r.name).getD (""), phone := (r.phone).getD (""),
               service := (r.service).getD (""), time := (r.time).getD (""),
               date := (r.date).getD (""), notes := r.notes },
             by simp [submitS4, hg, hf], by simp [submitS4, hg, hf, hbad]⟩
  · cases hf : findByPhone db.appointments ((r.phone).getD ("")) with
    | some a1 => exact ⟨applySubmitUpdate a1 r, by simp [submitJW, hg, hf, hbad],
                        by simp [submitJW, hg, hf, hbad]⟩
    | none =>
      exact ⟨{ id := db.nextId, name := (r.name).getD (""), phone := (r.phone).getD (""),
               service := (r.service).getD (""), time := (r.time).getD (""),
               date := (r.date).getD (""), notes := r.notes },
             by simp [submitJW, hg, hf, hbad], by simp [submitJW, hg, hf, hbad]⟩

theorem c5_malformed_datetime_success_witness :
    (truthy reqBananaDate.name && truthy reqBananaDate.phone && truthy reqBananaDate.service &&
     truthy reqBananaDate.time && truthy reqBananaDate.date) = true
    ∧ alertOf reqBananaDate = none
    ∧ ((∃ a, (submitS4 db0 reqBananaDate).1 = Resp.ok a
         ∧ (submitS4 db0 reqBananaDate).2.reminders
             = db0.reminders ++ [{ appointmentId := a.id, alertTime := none,
                                   status := ("pending") }])
       ∧ (∃ a, (submitJW db0 reqBananaDate).1 = Resp.ok a
         ∧ (submitJW db0 reqBananaDate).2.reminders = db0.reminders)) :=
  ⟨by decide, by decide,
   c5_malformed_datetime_success db0 reqBananaDate (by decide) (by decide)⟩

theorem find_first_match {α : Type} (f : α → Bool) (l1 l2 : List α) (a : α)
    (h1 : ∀ x ∈ l1, f x = false) (ha : f a = true) :
    (l1 ++ a :: l2).find? f = some a := by
  induction l1 with
  | nil => simp [List.find?, ha]
  | cons x xs ih =>
    simp only [List.cons_append, List.find?, h1 x (by simp)]
    exact ih (fun y hy => h1 y (by simp [hy]))

theorem removeFirstBy_append (m1 m2 : List Appointment) (a : Appointment)
    (f : Appointment → Bool)
    (h1 : ∀ x ∈ m1, f x = false) (ha : f a = true) :
    removeFirstBy (m1 ++ a :: m2) f = m1 ++ m2 := by
  induction m1 with
  | nil => simp [removeFirstBy, ha]
  | cons x xs ih =>
    simp only [List.cons_append, removeFirstBy, h1 x (by simp), Bool.false_eq_true, if_false]
    exact congrArg (x :: ·) (ih (fun y hy => h1 y (by simp [hy])))

theorem removeFirstRem_append (l1 l2 : List Reminder) (rm : Reminder) (i : Nat)
    (h1 : ∀ x ∈ l1, x.appointmentId ≠ i) (h2 : rm.appointmentId = i) :
    removeFirstRem (l1 ++ rm :: l2) i = l1 ++ l2 := by
  induction l1 with
  | nil => simp [removeFirstRem, h2]
  | cons x xs ih =>
    have hx : (x.appointmentId == i) = false := by
      simpa using h1 x (by simp)
    simp only [List.cons_append, removeFirstRem, hx, Bool.false_eq_true, if_false]
    exact congrArg (x :: ·) (ih (fun y hy => h1 y (by simp [hy])))

/-- C7: modify of an unknown phone answers NotFound and leaves the store
untouched (both variants), and so does cancel; cancel of an existing
phone removes the appointment and its reminder, leaving no reminder of
that appointment behind. -/
theorem c7_notfound_and_cancel_cleanup (db : DB) (r : BookingReq) (p : String)
    (hp : r.phone = some p) :
    (findByPhone db.appointments p = none →
        modifyS4 db r = (Resp.notFound, db)
        ∧ modifyJW db r = (Resp.notFound, db)
        ∧ cancelBooking db (some p) = (Resp.notFound, db))
    ∧ (∀ a m1 m2 l1 l2 rm,
        db.appointments = m1 ++ a :: m2 →
        (∀ x ∈ m1, x.phone ≠ p) → a.phone = p → (∀ x ∈ m2, x.phone ≠ p) →
        db.reminders = l1 ++ rm :: l2 →
        (∀ x ∈ l1, x.appointmentId ≠ a.id) → rm.appointmentId = a.id →
        (∀ x ∈ l2, x.appointmentId ≠ a.id) →
        (cancelBooking db (some p)).1 = Resp.okCancel
        ∧ (cancelBooking db (some p)).2.appointments = m1 ++ m2
        ∧ findByPhone (cancelBooking db (some p)).2.appointments p = none
        ∧ (cancelBooking db (some p)).2.reminders = l1 ++ l2
        ∧ (∀ x ∈ (cancelBooking db (some p)).2.reminders, x.appointmentId ≠ a.id)) := by
  constructor
  · intro hnone
    have h1 : db.appointments.find? (appFilter (some p)) = none := hnone
    refine ⟨by simp [modifyS4, hp, h1], ?_, by simp [cancelBooking, h1]⟩
    cases h2 : alertOf r <;> simp [modifyJW, hp, h1, h2]
  · intro a m1 m2 l1 l2 rm happ hm1 hap hm2 hrems hl1 hrm hl2
    have hfa : appFilter (some p) a = true := by
      simp [appFilter, hap]
    have hfm1 : ∀ x ∈ m1, appFilter (some p) x = false := by
      intro x hx
      simpa [appFilter] using hm1 x hx
    have hfind : db.appointments.find? (appFilter (some p)) = some a := by
      rw [happ]
      exact find_first_match _ m1 m2 a hfm1 hfa
    have happs : (cancelBooking db (some p)).2.appointments = m1 ++ m2 := by
      simp only [cancelBooking, hfind]
      rw [happ]
      exact removeFirstBy_append m1 m2 a _ hfm1 hfa
    have hrems2 : (cancelBooking db (some p)).2.reminders = l1 ++ l2 := by
      simp only [cancelBooking, hfind]
      rw [hrems]
      exact removeFirstRem_append l1 l2 rm a.id hl1 hrm
    refine ⟨by simp [cancelBooking, hfind], happs, ?_, hrems2, ?_⟩
    · rw [happs]
      unfold findByPhone
      rw [List.find?_eq_none]
      intro x hx
      rcases List.mem_append.mp hx with hx1 | hx2
      · simpa [appFilter] using hm1 x hx1
      · simpa [appFilter] using hm2 x hx2
    · intro x hx
      rw [hrems2] at hx
      rcases List.mem_append.mp hx with hx1 | hx2
      · exact hl1 x hx1
      · exact hl2 x hx2

theorem c7_notfound_and_cancel_cleanup_witness :
    reqPhone999.phone = some ("999")
    ∧ findByPhone dbA.appointments ("999") = none
    ∧ (modifyS4 dbA reqPhone999 = (Resp.notFound, dbA)
       ∧ modifyJW dbA reqPhone999 = (Resp.notFound, dbA)
       ∧ cancelBooking dbA (some ("999")) = (Resp.notFound, dbA))
    ∧ reqPhoneOnly.phone = some ("555")
    ∧ dbA.appointments = [] ++ appA :: []
    ∧ appA.phone = ("555")
    ∧ dbA.reminders = [] ++ rmA :: []
    ∧ rmA.appointmentId = appA.id
    ∧ ((cancelBooking dbA (some ("555"))).1 = Resp.okCancel
       ∧ (cancelBooking dbA (some ("555"))).2.appointments = [] ++ []
       ∧ findByPhone (cancelBooking dbA (some ("555"))).2.appointments ("555") = none
       ∧ (cancelBooking dbA (some ("555"))).2.reminders = [] ++ []
       ∧ (∀ x ∈ (cancelBooking dbA (some ("555"))).2.reminders,
            x.appointmentId ≠ appA.id)) :=
  ⟨by decide, by decide,
   (c7_notfound_and_cancel_cleanup dbA reqPhone999 ("999") (by decide)).1 (by decide),
   by decide, by decide, by decide, by decide, by decide,
   (c7_notfound_and_cancel_cleanup dbA reqPhoneOnly ("555") (by decide)).2
     appA [] [] [] [] rmA (by decide) (by decide) (by decide) (by decide)
     (by decide) (by decide) (by decide) (by decide)⟩

theorem generateSimpleToken_ne_empty (rand : List Nat) : generateSimpleToken rand ≠ ("") := by
  intro h
  have h2 := congrArg String.data h
  simp [generateSimpleToken] at h2

theorem tokLookup_map_set (st : List TokEntry) (tok p n : String) :
    tokLookup (st.map (fun e => if e.token == tok
        then { token := tok, phone := p, name := n } else e)) tok
      = if (tokLookup st tok).isSome then some { token := tok, phone := p, name := n }
        else none := by
  induction st with
  | nil => simp [tokLookup]
  | cons e es ih =>
    by_cases he : (e.token == tok) = true
    · simp [tokLookup, List.find?, he]
    · have he' : (e.token == tok) = false := by simpa using he
      simp [tokLookup, List.find?, he']
      simpa [tokLookup, List.find?] using ih

theorem tokSet_lookup (st : List TokEntry) (tok p n : String) :
    tokLookup (tokSet st tok p n) tok = some { token := tok, phone := p, name := n } := by
  unfold tokSet
  by_cases h : (tokLookup st tok).isSome = true
  · rw [if_pos (show (List.find? (fun e => e.token == tok) st).isSome = true from h),
        tokLookup_map_set, if_pos h]
  · rw [if_neg (show ¬ (List.find? (fun e => e.token == tok) st).isSome = true from h)]
    have hnone : List.find? (fun e => e.token == tok) st = none := by
      cases hc : List.find? (fun e => e.token == tok) st with
      | none => rfl
      | some e =>
        have h2 : (tokLookup st tok).isSome = true := by
          unfold tokLookup
          rw [hc]
          rfl
        exact absurd h2 h
    have hall : ∀ x ∈ st, (fun e => e.token == tok) x = false := by
      intro x hx
      have := List.find?_eq_none.mp hnone x hx
      simpa using this
    show (st ++ [({ token := tok, phone := p, name := n } : TokEntry)]).find?
        (fun e => e.token == tok) = some { token := tok, phone := p, name := n }
    exact find_first_match _ st [] _ hall (by simp)

theorem str_data_append (a b : String) : (a ++ b).data = a.data ++ b.data := by
  cases a
  cases b
  rfl

theorem hmacSig_injective (s1 s2 p : String) (e : Int)
    (h : hmacSig s1 p e = hmacSig s2 p e) : s1 = s2 := by
  unfold hmacSig at h
  have h2 := congrArg String.data h
  rw [str_data_append, str_data_append] at h2
  have h3 := List.append_cancel_left h2
  cases s1
  cases s2
  exact congrArg String.mk h3

/-- C8: token round-trip and failure contract.  Map variant (server4.js):
a token issued for phone p and name n redeems to exactly that identity,
the store is not mutated by redemption, a second redemption of the same
token answers the same identity, and redemption of a supplied token fails
with 401 Invalid exactly when the token is unknown to the store.  Signed
variant (part_000): an issued token verifies to its phone before expiry,
and verification fails for an expired token, a wrong secret, or a
malformed token. -/
theorem c8_token_contract (st : List TokEntry) (rand : List Nat) (p n v : String)
    (secret secret2 ph raw : String) (now t1 t2 : Int)
    (hp : p ≠ ("")) (hn : n ≠ ("")) (hv : v ≠ ("")) (hph : ph ≠ (""))
    (ht1 : t1 < now + 900) (ht2 : now + 900 ≤ t2) (hs : secret2 ≠ secret) :
    ((generateTokenS4 st (some p) (some n) (generateSimpleToken rand)).1
        = TokResp.okToken (generateSimpleToken rand))
    ∧ (validateTokenS4 (generateTokenS4 st (some p) (some n) (generateSimpleToken rand)).2
         (some (generateSimpleToken rand))
        = (TokResp.okIdent p n,
           (generateTokenS4 st (some p) (some n) (generateSimpleToken rand)).2))
    ∧ (validateTokenS4
         (validateTokenS4 (generateTokenS4 st (some p) (some n) (generateSimpleToken rand)).2
           (some (generateSimpleToken rand))).2
         (some (generateSimpleToken rand))
        = (TokResp.okIdent p n,
           (generateTokenS4 st (some p) (some n) (generateSimpleToken rand)).2))
    ∧ ((validateTokenS4 st (some v)).1 = TokResp.invalidToken ↔ tokLookup st v = none)
    ∧ (generateTokenJW secret (some ph) now = some (signJwt secret ph now))
    ∧ (verifyJwt secret (signJwt secret ph now) t1 = TokResp.okPhone ph)
    ∧ (verifyJwt secret (signJwt secret ph now) t2 = TokResp.invalidToken)
    ∧ (verifyJwt secret2 (signJwt secret ph now) t1 = TokResp.invalidToken)
    ∧ (verifyJwt secret (Jwt.malformed raw) t1 = TokResp.invalidToken) := by
  have htok : truthy (some (generateSimpleToken rand)) = true :=
    truthy_of_ne _ (generateSimpleToken_ne_empty rand)
  have hgen : (generateTokenS4 st (some p) (some n) (generateSimpleToken rand)).2
      = tokSet st (generateSimpleToken rand) p n := by
    simp [generateTokenS4, truthy_of_ne p hp, truthy_of_ne n hn, jsStr]
  have hval : validateTokenS4 (tokSet st (generateSimpleToken rand) p n)
      (some (generateSimpleToken rand))
      = (TokResp.okIdent p n, tokSet st (generateSimpleToken rand) p n) := by
    simp [validateTokenS4, htok, jsStr, tokSet_lookup]
  refine ⟨?_, ?_, ?_, ?_, ?_, ?_, ?_, ?_, ?_⟩
  · simp [generateTokenS4, truthy_of_ne p hp, truthy_of_ne n hn]
  · rw [hgen]
    exact hval
  · rw [hgen, hval]
    exact hval
  · have hvv : truthy (some v) = true := truthy_of_ne v hv
    cases hc : tokLookup st v with
    | none => simp [validateTokenS4, hvv, jsStr, hc]
    | some e => simp [validateTokenS4, hvv, jsStr, hc]
  · simp [generateTokenJW, truthy_of_ne ph hph, jsStr]
  · simp [verifyJwt, signJwt, ht1]
  · have hx : ¬ (t2 < now + 900) := not_lt.mpr ht2
    simp [verifyJwt, signJwt, hx]
  · have hne : (hmacSig secret ph (now + 900) == hmacSig secret2 ph (now + 900)) = false := by
      rw [beq_eq_false_iff_ne]
      intro hcontra
      exact hs (hmacSig_injective secret secret2 ph (now + 900) hcontra).symm
    simp [verifyJwt, signJwt, hne]
  · simp [verifyJwt]

theorem c8_token_contract_witness :
    (("555") ≠ ("") ∧ ("Ann") ≠ ("") ∧ ("zz") ≠ ("") ∧ ("777") ≠ ("")
      ∧ ((100 : Int) < 0 + 900) ∧ ((0 : Int) + 900 ≤ 900) ∧ ("k2") ≠ ("k1"))
    ∧ (((generateTokenS4 [] (some ("555")) (some ("Ann")) (generateSimpleToken [])).1
          = TokResp.okToken (generateSimpleToken []))
      ∧ (validateTokenS4 (generateTokenS4 [] (some ("555")) (some ("Ann"))
             (generateSimpleToken [])).2 (some (generateSimpleToken []))
          = (TokResp.okIdent ("555") ("Ann"),
             (generateTokenS4 [] (some ("555")) (some ("Ann")) (generateSimpleToken [])).2))
      ∧ (validateTokenS4
           (validateTokenS4 (generateTokenS4 [] (some ("555")) (some ("Ann"))
               (generateSimpleToken [])).2 (some (generateSimpleToken []))).2
           (some (generateSimpleToken []))
          = (TokResp.okIdent ("555") ("Ann"),
             (generateTokenS4 [] (some ("555")) (some ("Ann")) (generateSimpleToken [])).2))
      ∧ ((validateTokenS4 [] (some ("zz"))).1 = TokResp.invalidToken
          ↔ tokLookup [] ("zz") = none)
      ∧ (generateTokenJW ("k1") (some ("777")) 0 = some (signJwt ("k1") ("777") 0))
      ∧ (verifyJwt ("k1") (signJwt ("k1") ("777") 0) 100 = TokResp.okPhone ("777"))
      ∧ (verifyJwt ("k1") (signJwt ("k1") ("777") 0) 900 = TokResp.invalidToken)
      ∧ (verifyJwt ("k2") (signJwt ("k1") ("777") 0) 100 = TokResp.invalidToken)
      ∧ (verifyJwt ("k1") (Jwt.malformed ("junk")) 100 = TokResp.invalidToken)) :=
  ⟨⟨by decide, by decide, by decide, by decide, by decide, by decide, by decide⟩,
   c8_token_contract [] [] ("555") ("Ann") ("zz") ("k1") ("k2") ("777") ("junk") 0 100 900
     (by decide) (by decide) (by decide) (by decide) (by decide) (by decide) (by decide)⟩
